import Mathlib

/-!
Verification of the curriculum-learning schedule and dataset adapter from
`src/04_training_long_sequences.ipynb` (the only locally written logic of the
repository).  The Python code is shallowly embedded: Python integers are `Int`,
Python floor division `//` is `Int.fdiv`, a `ZeroDivisionError` is `none`, and
the tokenizer and corpus collaborators are explicit structures.
-/

namespace LongSeq

/-- Module-level constant `max_length = 4096` from the curriculum cell. -/
def max_length : Int := 4096

/-- Module-level constant `min_length = 1024` from the curriculum cell. -/
def min_length : Int := 1024

/-- Module-level constant `num_epochs = 3` from the curriculum cell. -/
def num_epochs : Int := 3

/-- Python floor division `a // b`: floor rounding, and a `ZeroDivisionError`
(modelled as `none`) when the divisor is zero. -/
def pydiv (a b : Int) : Option Int :=
  if b = 0 then none else some (Int.fdiv a b)

/-- Embedding of the source function, with the three module-level globals it
closes over made explicit leading parameters:

    def get_sequence_length(epoch):
        return min(max_length, min_length + (max_length - min_length) * epoch // num_epochs)

Python precedence gives `((max_length - min_length) * epoch) // num_epochs`;
`//` can raise `ZeroDivisionError`, hence the `Option`. -/
def get_sequence_length (min_length max_length num_epochs epoch : Int) : Option Int :=
  (pydiv ((max_length - min_length) * epoch) num_epochs).map
    (fun q => min max_length (min_length + q))

/-- The spec's closed form, written with the mathematical floor over ℚ:
`min(max_length, min_length + floor((max_length - min_length) * epoch / total_epochs))`. -/
def schedule_spec (m M T epoch : Int) : Int :=
  min M (m + ⌊(((M - m) * epoch : Int) : ℚ) / ((T : Int) : ℚ)⌋)

/-- A corpus record: a dict with a `text` field, as accessed by
`item['text']` in `__getitem__`. -/
structure Record where
  text : String
deriving DecidableEq

/-- The tokenization collaborator: maps raw text to a token-id sequence and
exposes the designated padding token id (`tokenizer.pad_token_id`). -/
structure Tokenizer where
  encode : String → List Int
  pad_token_id : Int

/-- The encoding returned by calling the tokenizer; the `labels` field is
added afterwards by `__getitem__`. -/
structure Encoding where
  input_ids : List Int
  attention_mask : List Int
deriving DecidableEq

/-- The tokenizer call
`tokenizer(text, truncation=True, padding='max_length', max_length=L, return_tensors='pt')`:
the raw token-id sequence is truncated to at most `L` tokens and padded with
`pad_token_id` up to exactly `L`, with the attention mask marking real tokens
with 1 and padding with 0. -/
def Tokenizer.call (tk : Tokenizer) (text : String) (L : Nat) : Encoding :=
  let toks := (tk.encode text).take L
  { input_ids := toks ++ List.replicate (L - toks.length) tk.pad_token_id,
    attention_mask :=
      List.replicate toks.length 1 ++ List.replicate (L - toks.length) 0 }

/-- Python sequence indexing `l[i]`: a negative index is resolved from the end,
and an out-of-range index raises `IndexError` (modelled as `none`).  This is
the behavior of the corpus collaborator that `__getitem__` passes `idx` to
unchecked. -/
def pyindex {α : Type} (l : List α) (i : Int) : Option α :=
  let j : Int := if i < 0 then i + l.length else i
  if 0 ≤ j then l.get? j.toNat else none

/-- The fields of `CurriculumDataset` set by `__init__`: the corpus, the
tokenizer, and `seq_length = get_sequence_length(epoch)`. -/
structure CurriculumDataset where
  dataset : List Record
  tokenizer : Tokenizer
  seq_length : Int

/-- `CurriculumDataset.__init__(dataset, tokenizer, epoch)`: stores the corpus
and tokenizer and computes `seq_length` from the epoch via
`get_sequence_length` with the module constants.  With `num_epochs = 3` the
division cannot fail, but the `Option` propagates faithfully. -/
def CurriculumDataset.init (dataset : List Record) (tk : Tokenizer)
    (epoch : Int) : Option CurriculumDataset :=
  (get_sequence_length min_length max_length num_epochs epoch).map
    (fun L => { dataset := dataset, tokenizer := tk, seq_length := L })

/-- A produced training example (the dict returned by `__getitem__`;
`squeeze(0)` only removes the tensor batch dimension and is a no-op on the
underlying sequences). -/
structure Example where
  input_ids : List Int
  attention_mask : List Int
  labels : List Int
deriving DecidableEq

/-- `CurriculumDataset.__len__`: the length of the underlying corpus. -/
def CurriculumDataset.length (ds : CurriculumDataset) : Nat :=
  ds.dataset.length

/-- `CurriculumDataset.__getitem__(idx)`:

    item = self.dataset[idx]
    encoding = self.tokenizer(item['text'], truncation=True, padding='max_length',
                              max_length=self.seq_length, return_tensors='pt')
    encoding['labels'] = encoding['input_ids'].clone()
    encoding['labels'][encoding['input_ids'] == self.tokenizer.pad_token_id] = -100
    return {key: val.squeeze(0) for key, val in encoding.items()}

The index goes unchecked to the corpus (`pyindex`); the masked assignment sets
the label to -100 exactly at the positions whose token id equals
`pad_token_id`. -/
def CurriculumDataset.getItem (ds : CurriculumDataset) (idx : Int) :
    Option Example :=
  (pyindex ds.dataset idx).map (fun item =>
    let encoding := ds.tokenizer.call item.text ds.seq_length.toNat
    let labels := encoding.input_ids.map
      (fun t => if t = ds.tokenizer.pad_token_id then -100 else t)
    { input_ids := encoding.input_ids,
      attention_mask := encoding.attention_mask,
      labels := labels })

/-- `__getitem__` with the adapter state threaded explicitly: every statement
of the method body only reads `self` (no assignment to any field of `self` or
to the corpus occurs), so each step passes the state through unchanged. -/
def CurriculumDataset.getItemState (ds : CurriculumDataset) (idx : Int) :
    Option Example × CurriculumDataset :=
  match pyindex ds.dataset idx with
  | none => (none, ds)
  | some item =>
    let encoding := ds.tokenizer.call item.text ds.seq_length.toNat
    let labels := encoding.input_ids.map
      (fun t => if t = ds.tokenizer.pad_token_id then -100 else t)
    (some { input_ids := encoding.input_ids,
            attention_mask := encoding.attention_mask,
            labels := labels }, ds)

/-- A concrete two-record corpus used to evaluate theorems on explicit
inputs. -/
def exampleCorpus : List Record :=
  [{ text := "a" }, { text := "bb" }]

/-- A concrete tokenizer used to evaluate theorems on explicit inputs: one
token with id 5 per character, padding token id 0. -/
def exampleTokenizer : Tokenizer :=
  { encode := fun s => List.replicate s.length 5, pad_token_id := 0 }

/-- A concrete adapter with sequence length 3 over `exampleCorpus`. -/
def exampleDS : CurriculumDataset :=
  { dataset := exampleCorpus, tokenizer := exampleTokenizer, seq_length := 3 }

/-- The example `exampleDS.getItem 0` evaluates to: one real token, two
padding positions, labels masked at the padding. -/
def exampleItem0 : Example :=
  { input_ids := [5, 0, 0], attention_mask := [1, 0, 0],
    labels := [5, -100, -100] }

/-- For a nonzero divisor the implementation returns `some` of the formula value. -/
lemma get_sequence_length_eq (m M T e : Int) (hT : T ≠ 0) :
    get_sequence_length m M T e = some (min M (m + Int.fdiv ((M - m) * e) T)) := by
  simp [get_sequence_length, pydiv, hT]

/-- For a positive divisor, `Int.fdiv` is the rational floor. -/
lemma fdiv_eq_rat_floor (a T : Int) (hT : 0 < T) :
    Int.fdiv a T = ⌊((a : Int) : ℚ) / ((T : Int) : ℚ)⌋ := by
  rw [Int.fdiv_eq_ediv a (le_of_lt hT)]
  have hTn : T = ((T.toNat : ℕ) : Int) := (Int.toNat_of_nonneg (le_of_lt hT)).symm
  rw [hTn]
  rw [show ((((T.toNat : ℕ) : Int) : ℚ)) = ((T.toNat : ℕ) : ℚ) by push_cast; ring]
  exact (Rat.floor_intCast_div_natCast a T.toNat).symm

/-- C1: on the valid domain the implementation equals the spec's closed form. -/
theorem c1_schedule_matches_spec (e m M T : Int)
    (he : 0 ≤ e) (hm : 0 < m) (hmM : m ≤ M) (hT : 0 < T) :
    get_sequence_length m M T e = some (schedule_spec m M T e) := by
  rw [get_sequence_length_eq m M T e (ne_of_gt hT), schedule_spec,
    fdiv_eq_rat_floor ((M - m) * e) T hT]

/-- Witness for C1 at `m = 1024, M = 4096, T = 3, e = 1`. -/
theorem c1_schedule_matches_spec_witness :
    get_sequence_length 1024 4096 3 1 = some (schedule_spec 1024 4096 3 1) :=
  c1_schedule_matches_spec 1 1024 4096 3 (by norm_num) (by norm_num) (by norm_num)
    (by norm_num)

/-- C8 (concrete schedule values for the module constants
`min_length = 1024, max_length = 4096, num_epochs = 3`): epochs 0, 1, 2, 3 give
lengths 1024, 2048, 3072, 4096. -/
theorem c8_concrete_schedule :
    get_sequence_length min_length max_length num_epochs 0 = some 1024 ∧
    get_sequence_length min_length max_length num_epochs 1 = some 2048 ∧
    get_sequence_length min_length max_length num_epochs 2 = some 3072 ∧
    get_sequence_length min_length max_length num_epochs 3 = some 4096 := by
  refine ⟨?_, ?_, ?_, ?_⟩ <;> decide

/-- C2 counterexample: `epoch = -1` is an invalid parameter, yet with the module
constants the function does not fail — it silently returns the nonsensical
length `0`.  This refutes the claim that invalid parameters fail fast. -/
theorem c2_counterexample :
    get_sequence_length min_length max_length num_epochs (-1) = some 0 := by
  decide

/-- C2 amended: the function performs no parameter validation.  It fails if and
only if `total_epochs = 0` (a `ZeroDivisionError`, not a descriptive parameter
error); for every other combination of parameters — including
`max_length < min_length`, negative epoch, and negative `total_epochs` — it
silently returns a (possibly nonsensical) length. -/
theorem c2_amended_no_validation (m M T e : Int) :
    (get_sequence_length m M T e).isSome = true ↔ T ≠ 0 := by
  by_cases hT : T = 0 <;> simp [get_sequence_length, pydiv, hT]

/-- C6: on the valid domain the schedule is monotone non-decreasing in the
epoch. -/
theorem c6_schedule_monotone (m M T a b : Int)
    (hm : 0 < m) (hmM : m ≤ M) (hT : 0 < T) (ha : 0 ≤ a) (hab : a < b)
    (la lb : Int)
    (hla : get_sequence_length m M T a = some la)
    (hlb : get_sequence_length m M T b = some lb) :
    la ≤ lb := by
  rw [get_sequence_length_eq m M T a (ne_of_gt hT), Option.some_inj] at hla
  rw [get_sequence_length_eq m M T b (ne_of_gt hT), Option.some_inj] at hlb
  subst hla hlb
  rw [Int.fdiv_eq_ediv _ (le_of_lt hT), Int.fdiv_eq_ediv _ (le_of_lt hT)]
  refine min_le_min (le_refl M) (add_le_add_left ?_ m)
  exact Int.ediv_le_ediv hT
    (mul_le_mul_of_nonneg_left (le_of_lt hab) (by omega))

/-- Witness for C6 at `m = 1024, M = 4096, T = 3, a = 0, b = 1`. -/
theorem c6_schedule_monotone_witness : (1024 : Int) ≤ 2048 :=
  c6_schedule_monotone 1024 4096 3 0 1 (by norm_num) (by norm_num) (by norm_num)
    (by norm_num) (by norm_num) 1024 2048 (by decide) (by decide)

/-- C7: on the valid domain the schedule starts at `min_length` at epoch 0, is
bounded above by `max_length` for every epoch, and saturates at `max_length`
for every epoch at or beyond `total_epochs`. -/
theorem c7_schedule_bounds (m M T : Int) (hm : 0 < m) (hmM : m ≤ M) (hT : 0 < T) :
    get_sequence_length m M T 0 = some m ∧
    (∀ e l : Int, 0 ≤ e → get_sequence_length m M T e = some l → l ≤ M) ∧
    (∀ e : Int, T ≤ e → get_sequence_length m M T e = some M) := by
  refine ⟨?_, ?_, ?_⟩
  · rw [get_sequence_length_eq m M T 0 (ne_of_gt hT)]
    simp [min_eq_right hmM]
  · intro e l he hl
    rw [get_sequence_length_eq m M T e (ne_of_gt hT), Option.some_inj] at hl
    subst hl
    exact min_le_left _ _
  · intro e hTe
    rw [get_sequence_length_eq m M T e (ne_of_gt hT), Option.some_inj]
    rw [Int.fdiv_eq_ediv _ (le_of_lt hT)]
    have hsat : M - m ≤ (M - m) * e / T := by
      have hq : (M - m) * T / T = M - m := Int.mul_ediv_cancel (M - m) (ne_of_gt hT)
      calc M - m = (M - m) * T / T := hq.symm
        _ ≤ (M - m) * e / T :=
          Int.ediv_le_ediv hT (mul_le_mul_of_nonneg_left hTe (by omega))
    omega

/-- Witness for C7 at `m = 1024, M = 4096, T = 3`, with the bound checked at
epoch 1 and saturation at epoch 5. -/
theorem c7_schedule_bounds_witness :
    get_sequence_length 1024 4096 3 0 = some 1024 ∧ (2048 : Int) ≤ 4096 ∧
    get_sequence_length 1024 4096 3 5 = some 4096 :=
  ⟨(c7_schedule_bounds 1024 4096 3 (by norm_num) (by norm_num) (by norm_num)).1,
   (c7_schedule_bounds 1024 4096 3 (by norm_num) (by norm_num) (by norm_num)).2.1
     1 2048 (by norm_num) (by decide),
   (c7_schedule_bounds 1024 4096 3 (by norm_num) (by norm_num) (by norm_num)).2.2
     5 (by norm_num)⟩

/-- `l.get? n` succeeds exactly below the length. -/
lemma get?_isSome_iff {α : Type} (l : List α) (n : Nat) :
    (l.get? n).isSome = true ↔ n < l.length := by
  rw [Option.isSome_iff_ne_none, ne_eq, List.get?_eq_none]
  omega

/-- `pyindex` succeeds exactly on the Python-valid index range. -/
lemma pyindex_isSome {α : Type} (l : List α) (i : Int) :
    (pyindex l i).isSome = true ↔
      -(l.length : Int) ≤ i ∧ i < (l.length : Int) := by
  simp only [pyindex]
  by_cases h : i < 0
  · simp only [if_pos h]
    by_cases h2 : (0 : Int) ≤ i + l.length
    · rw [if_pos h2, get?_isSome_iff]
      omega
    · rw [if_neg h2]
      simp only [Option.isSome_none, Bool.false_eq_true, false_iff]
      omega
  · simp only [if_neg h]
    rw [if_pos (by omega), get?_isSome_iff]
    omega

/-- C3 counterexample: on a concrete two-record adapter, `get(-1)` does not
fail, refuting the claim that every negative index yields an out-of-range
error. -/
theorem c3_counterexample : (exampleDS.getItem (-1)).isSome = true := by
  decide

/-- C3 amended: `get(index)` fails with an out-of-range error if and only if
`index < -length()` or `index ≥ length()`, and succeeds for every index with
`-length() ≤ index < length()` — negative indices down to `-length()` resolve
from the end of the corpus instead of failing. -/
theorem c3_amended_index_bounds (ds : CurriculumDataset) (idx : Int) :
    (ds.getItem idx).isSome = true ↔
      -(ds.length : Int) ≤ idx ∧ idx < (ds.length : Int) := by
  rw [CurriculumDataset.getItem, Option.isSome_map']
  exact pyindex_isSome ds.dataset idx

/-- C4: in every produced example, a position whose token id equals the
padding token id carries the label -100, and a position whose token id differs
carries the token id itself. -/
theorem c4_labels_mask_padding (ds : CurriculumDataset) (idx : Int)
    (ex : Example) (hex : ds.getItem idx = some ex) (i : Nat) (t : Int)
    (ht : ex.input_ids.get? i = some t) :
    ex.labels.get? i =
      some (if t = ds.tokenizer.pad_token_id then -100 else t) := by
  rw [CurriculumDataset.getItem, Option.map_eq_some'] at hex
  obtain ⟨item, hitem, rfl⟩ := hex
  simp only [List.get?_map] at ht ⊢
  rw [ht, Option.map_some']

/-- Witness for C4 on `exampleDS` at index 0, position 1 (a padding
position). -/
theorem c4_labels_mask_padding_witness :
    exampleItem0.labels.get? 1 =
      some (if (0 : Int) = exampleDS.tokenizer.pad_token_id then -100 else 0) :=
  c4_labels_mask_padding exampleDS 0 exampleItem0 (by decide) 1 0 (by decide)

/-- C5: every example produced by an adapter whose target sequence length is
`L` has token-id and label sequences of length exactly `L`. -/
theorem c5_example_lengths (ds : CurriculumDataset) (L : Nat)
    (hL : ds.seq_length = (L : Int)) (idx : Int) (ex : Example)
    (hex : ds.getItem idx = some ex) :
    ex.input_ids.length = L ∧ ex.labels.length = L := by
  rw [CurriculumDataset.getItem, Option.map_eq_some'] at hex
  obtain ⟨item, hitem, rfl⟩ := hex
  simp only [Tokenizer.call, hL, Int.toNat_ofNat, List.length_map,
    List.length_append, List.length_replicate, List.length_take]
  omega

/-- Witness for C5 on `exampleDS` (sequence length 3) at index 0. -/
theorem c5_example_lengths_witness :
    exampleItem0.input_ids.length = 3 ∧ exampleItem0.labels.length = 3 :=
  c5_example_lengths exampleDS 3 (by decide) 0 exampleItem0 (by decide)

/-- C9: `__getitem__` never updates the adapter state (the state-threaded
embedding returns it unchanged), so a second call with the same index yields
an identical output. -/
theorem c9_getitem_idempotent (ds : CurriculumDataset) (idx : Int) :
    (ds.getItemState idx).2 = ds ∧
    ((ds.getItemState idx).2.getItemState idx).1 = (ds.getItemState idx).1 := by
  unfold CurriculumDataset.getItemState
  cases h : pyindex ds.dataset idx <;> simp [h]

/-- C10: for `1 ≤ k ≤ length()`, `get(-k)` does not fail and returns the same
example as `get(length() - k)`: the unchecked index is resolved from the end
by the corpus. -/
theorem c10_negative_index_wraps (ds : CurriculumDataset) (k : Nat)
    (h1 : 1 ≤ k) (h2 : k ≤ ds.length) :
    ds.getItem (-(k : Int)) = ds.getItem ((ds.length : Int) - (k : Int)) ∧
    (ds.getItem (-(k : Int))).isSome = true := by
  have hlen : ds.length = ds.dataset.length := rfl
  rw [hlen] at h2
  constructor
  · rw [CurriculumDataset.getItem, CurriculumDataset.getItem]
    have hpy : pyindex ds.dataset (-(k : Int)) =
        pyindex ds.dataset ((ds.length : Int) - (k : Int)) := by
      simp only [pyindex, CurriculumDataset.length]
      rw [if_pos (show -(k : Int) < 0 by omega),
        if_neg (show ¬ ((ds.dataset.length : Int) - (k : Int) < 0) by omega),
        if_pos (show (0 : Int) ≤ -(k : Int) + ds.dataset.length by omega),
        if_pos (show (0 : Int) ≤ (ds.dataset.length : Int) - (k : Int) by omega)]
      rw [show (-(k : Int) + ds.dataset.length).toNat =
        ((ds.dataset.length : Int) - (k : Int)).toNat by omega]
    rw [hpy]
  · rw [CurriculumDataset.getItem, Option.isSome_map']
    rw [pyindex_isSome]
    omega

/-- Witness for C10 on `exampleDS` (two records) with `k = 1`. -/
theorem c10_negative_index_wraps_witness :
    exampleDS.getItem (-1) =
      exampleDS.getItem ((exampleDS.length : Int) - 1) ∧
    (exampleDS.getItem (-1)).isSome = true := by
  have h := c10_negative_index_wraps exampleDS 1 (by norm_num) (by decide)
  simpa using h

end LongSeq
